import Mathlib

/-!
Shallow embedding of the `EI_DFT` acquisition module of the GPyOpt_DFT
repository (file `src/GPyOpt/acquisitions/EI_DFT.py`), together with proofs
about its behaviour.

Two worlds are modelled:

* the evaluation-time functions (`calc_P`, `inv_sigmoid`,
  `calc_gradient_of_P`, `_compute_acq`, `_compute_acq_withGradients`) work on
  numpy arrays of floating point numbers.  To keep the embedding executable
  it is generic over a field `R` of scalars together with an explicit
  exponential map `rexp : R → R`; the intended reading instantiates `R := ℝ`
  and `rexp := Real.exp`.  A numpy scalar is `Option R`: `some r` is a
  finite value, `none` is NaN, and every arithmetic operation propagates
  `none` exactly as IEEE arithmetic propagates NaN.  Arrays of shape `(n, 1)`
  are modelled as `Col R` (a column) and arrays of shape `(n, d)` as `Mat R`
  (a list of rows); the numpy broadcasting of an `(n, 1)` column against an
  `(n, d)` matrix is made explicit by `mzipc`.  The external GPy models are
  capability interfaces: the primary surrogate and the constraint surrogate
  are records of abstract prediction functions.

* the construction-time functions (`GP_model` and the constructor body of
  `AcquisitionEI_DFT`) involve only rational arithmetic (variances, maxima,
  bounds, configuration defaults), so they are embedded over `ℚ`.  The GPy
  fitting step `optimize_restarts` is external; `GP_model` is split into
  `GP_modelSpec`, which performs every computation of the Python function up
  to the hand-off to GPy (hyperparameter auto-correction, kernel and bound
  construction), and an abstract fitter `fit : ModelSpec → GPyModel` standing
  for the optimizer.  Python exceptions (AttributeError on `None.kern`,
  TypeError on `len(None)` and `None * 1e-12`, ValueError on tuple
  unpacking, KeyError on column selection) are modelled with `Except`.
-/

namespace EIDFT

/-- A numpy floating point scalar over the scalar field `R`: `some r` is a
finite value, `none` is NaN. -/
abbrev NR (R : Type) := Option R

/-- An `(n, 1)` numpy array, flattened to its `n` entries. -/
abbrev Col (R : Type) := List (NR R)

/-- An `(n, d)` numpy array as a list of `n` rows. -/
abbrev Mat (R : Type) := List (List (NR R))

variable {R : Type} [Field R]

/-- NaN-propagating addition. -/
def nadd (a b : NR R) : NR R := a.bind (fun x => b.map (fun y => x + y))

/-- NaN-propagating subtraction. -/
def nsub (a b : NR R) : NR R := a.bind (fun x => b.map (fun y => x - y))

/-- NaN-propagating multiplication. -/
def nmul (a b : NR R) : NR R := a.bind (fun x => b.map (fun y => x * y))

/-- NaN-propagating division (the divisors used by the source are nonzero). -/
def ndiv (a b : NR R) : NR R := a.bind (fun x => b.map (fun y => x / y))

/-- Elementwise operation on two columns (numpy elementwise arithmetic). -/
def czip (f : NR R → NR R → NR R) : Col R → Col R → Col R := List.zipWith f

/-- Elementwise operation on two `(n, d)` matrices. -/
def mzip (f : NR R → NR R → NR R) : Mat R → Mat R → Mat R :=
  List.zipWith (List.zipWith f)

/-- The numpy broadcasting of an `(n, 1)` column across the `d` columns of an
`(n, d)` matrix: row `k` of the result applies `f` to each entry of row `k`
of `A` and the `k`-th entry of `c`. -/
def mzipc (f : NR R → NR R → NR R) (A : Mat R) (c : Col R) : Mat R :=
  List.zipWith (fun row v => row.map (fun a => f a v)) A c

/-- The `x.shape[1]` of an `(n, d)` array. -/
def ncols (A : Mat R) : Nat := (A.headD []).length

/-- Update `A[:,i] = f (A[:,i])`: update column `i` of every row. -/
def mapCol (A : Mat R) (i : Nat) (f : NR R → NR R) : Mat R :=
  A.map (fun row => row.set i (f (row.getD i none)))

/-- Overwrite `A[:,i] = c`: overwrite column `i` with the entries of a column. -/
def setCol (A : Mat R) (i : Nat) (c : Col R) : Mat R :=
  List.zipWith (fun row v => row.set i v) A c

/-- The test `np.any(np.isnan(x))`. -/
def anyIsNaN (x : Mat R) : Bool := x.any (fun row => row.any Option.isNone)

/-- Scalar body of `inv_sigmoid` (EI_DFT.py line 313):
`f = 1/(1+np.exp((mean-midpoint)/beta))`, with `rexp` the exponential map of
the scalar field. -/
def inv_sigmoidR (rexp : R → R) (mean midpoint beta : R) : R :=
  1 / (1 + rexp ((mean - midpoint) / beta))

/-- Embedding of `inv_sigmoid(mean, midpoint, beta)` (EI_DFT.py lines
310-315), applied
elementwise over an array of means; NaN entries propagate. -/
def inv_sigmoid (rexp : R → R) (mean : Col R) (midpoint beta : R) : Col R :=
  mean.map (Option.map (fun v => inv_sigmoidR rexp v midpoint beta))

/-- The fitted auxiliary (constraint) GPy model as used at evaluation time: a
capability interface exposing `predict_noiseless`, which returns the pair of
posterior mean and variance columns for a batch of points. -/
structure CModel (R : Type) where
  predictNoiseless : Mat R → Col R × Col R

/-- Embedding of `calc_P(points, GP_model, beta, midpoint)` (EI_DFT.py
lines 290-308).
With a model, the posterior mean (`mean[0]` of `predict_noiseless`) is pushed
through `inv_sigmoid`; with `None`, mean is identically `0.5` and the
probability identically `1.0`, with `points.shape[0]` rows. -/
def calc_P (rexp : R → R) (points : Mat R) (model : Option (CModel R))
    (beta midpoint : R) : Col R × Col R :=
  match model with
  | some M =>
    let mean := (M.predictNoiseless points).1
    (mean, inv_sigmoid rexp mean midpoint beta)
  | none =>
    (List.replicate points.length (some (1 / 2)),
     List.replicate points.length (some 1))

/-- Embedding of `calc_gradient_of_P(x, constraint_model, beta, midpoint,
lengthscale)` (EI_DFT.py lines 177-198).  `g = np.empty(x.shape)` is uninitialized memory,
modelled by the extra argument `g0` (an arbitrary matrix of the shape of
`x`).  The statement `return g` in the source sits INSIDE the `for i in range(x.shape[1])` loop, so
when `x.shape[1] ≥ 1` the function returns after the `i = 0` iteration with
only column `0` written; when `x.shape[1] = 0` the loop body never runs and
the Python function falls off the end, returning `None` (modelled `none`). -/
def calc_gradient_of_P (rexp : R → R) (x : Mat R)
    (constraint_model : Option (CModel R)) (beta midpoint lengthscale : R)
    (g0 : Mat R) : Option (Mat R) :=
  let delta_x := lengthscale / 1000
  if 0 < ncols x then
    let i := 0
    let x_l := mapCol x i (fun v => nsub v (some delta_x))
    let x_u := mapCol x i (fun v => nadd v (some delta_x))
    let p_l := (calc_P rexp x_l constraint_model beta midpoint).2
    let p_u := (calc_P rexp x_u constraint_model beta midpoint).2
    some (setCol g0 i
      (czip (fun a b => ndiv (nsub a b) (some (2 * delta_x))) p_u p_l))
  else
    none

/-- The primary surrogate model, an external collaborator: `predict` returns
`(m, s)`, `predictWithGradients` returns `(m, s, dmdx, dsdx)`, and `fmin` is
`get_fmin()`. -/
structure PModel (R : Type) where
  predict : Mat R → Col R × Col R
  predictWithGradients : Mat R → Col R × Col R × Mat R × Mat R
  fmin : R

/-- The external `get_quantiles(jitter, fmin, m, s)` helper, returning
`(phi, Phi, u)`. -/
abbrev Quantiles (R : Type) := R → R → Col R → Col R → Col R × Col R × Col R

/-- Embedding of `AcquisitionEI_DFT._compute_acq(x)` (EI_DFT.py lines
130-145):
`f_acqu = s*(u*Phi+phi)` multiplied elementwise by the probability column of
`calc_P`.  The source builds a log-message string from
`s*u*Phi*prob` and `s*phi*prob` and discards it (logging is commented out);
it raises no exception, hence the `Except.ok` on every path. -/
def compute_acq (rexp : R → R) (model : PModel R)
    (get_quantiles : Quantiles R) (jitter : R)
    (constraint_model : Option (CModel R)) (beta midpoint : R) (x : Mat R) :
    Except String (Col R) :=
  let ms := model.predict x
  let s := ms.2
  let fmin := model.fmin
  let q := get_quantiles jitter fmin ms.1 s
  let phi := q.1
  let Phi := q.2.1
  let u := q.2.2
  let f_acqu := czip nmul s (czip nadd (czip nmul u Phi) phi)
  let prob := (calc_P rexp x constraint_model beta midpoint).2
  Except.ok (czip nmul f_acqu prob)

/-- Embedding of `AcquisitionEI_DFT._compute_acq_withGradients(x)`
(EI_DFT.py lines 147-175).  `f_acqu = s*(u*Phi+phi)`, `df_acqu = dsdx*phi - Phi*dmdx`; the
NaN test `np.any(np.isnan(x))` only builds a log message (logging commented
out) and continues.  The source then REASSIGNS `f_acqu = f_acqu * prob`
(modelled `f_acqu2`) before using it in
`df_acqu = df_acqu * prob + f_acqu * d_prob`, so the second product-rule term
carries `EI * prob`, not the un-multiplied `EI`.  If `calc_gradient_of_P`
returned `None` (zero-column input), the multiplication `f_acqu * d_prob`
would raise a TypeError, modelled as `Except.error`. -/
def compute_acq_withGradients (rexp : R → R) (model : PModel R)
    (get_quantiles : Quantiles R) (jitter : R)
    (constraint_model : Option (CModel R)) (beta midpoint lengthscale : R)
    (g0 : Mat R) (x : Mat R) : Except String (Col R × Mat R) :=
  let fmin := model.fmin
  let p := model.predictWithGradients x
  let m := p.1
  let s := p.2.1
  let dmdx := p.2.2.1
  let dsdx := p.2.2.2
  let q := get_quantiles jitter fmin m s
  let phi := q.1
  let Phi := q.2.1
  let u := q.2.2
  let f_acqu := czip nmul s (czip nadd (czip nmul u Phi) phi)
  let df_acqu := mzip nsub (mzipc nmul dsdx phi) (mzipc nmul dmdx Phi)
  let _hasNaN := anyIsNaN x
  let prob := (calc_P rexp x constraint_model beta midpoint).2
  let f_acqu2 := czip nmul f_acqu prob
  match calc_gradient_of_P rexp x constraint_model beta midpoint lengthscale g0 with
  | none => Except.error "TypeError: unsupported operand type for NoneType"
  | some d_prob =>
    Except.ok (f_acqu2,
      mzip nadd (mzipc nmul df_acqu prob) (mzipc nmul d_prob f_acqu2))

/-! ### Construction-time world: `GP_model` and the constructor -/

/-- A pandas DataFrame: named columns, each row a lookup from column name to
a (rational) numeric value. -/
structure DataFrame where
  columns : List String
  rows : List (String → ℚ)

/-- The `df[vars]` / `df[[target]]` column selection followed by `.values`: the
rows restricted to the named columns, as a numeric matrix.  Selecting with
`None` or with a name that is not a column raises a KeyError in pandas. -/
def dfSelect (df : DataFrame) (vars : Option (List String)) :
    Except String (List (List ℚ)) :=
  match vars with
  | none => Except.error "KeyError: None"
  | some vs =>
    if vs.all (fun v => df.columns.contains v) then
      Except.ok (df.rows.map (fun r => vs.map r))
    else Except.error "KeyError: column not found"

/-- The numpy `.var()` of all entries of an array: the population variance. -/
def pvar (l : List ℚ) : ℚ :=
  ((l.map (fun y => (y - l.sum / (l.length : ℚ)) ^ 2)).sum) / (l.length : ℚ)

/-- The numpy `.max()` over all entries. -/
def listMax : List ℚ → ℚ
  | [] => 0
  | x :: xs => xs.foldl max x

/-- The numpy `.min()` over all entries. -/
def listMin : List ℚ → ℚ
  | [] => 0
  | x :: xs => xs.foldl min x

/-- Everything `GP_model` hands to the GPy regression before optimization:
the input dimension of the Matern52 kernel and initial hyperparameters, the
initial Gaussian noise variance, the `constrain_bounded` intervals for the
noise and the kernel variance, and the restart configuration of
`optimize_restarts`. -/
structure ModelSpec where
  inputDim : Nat
  kernelLengthscale : ℚ
  kernelVariance : ℚ
  noiseVariance : ℚ
  noiseLowerBound : ℚ
  noiseUpperBound : ℚ
  varianceLowerBound : ℚ
  varianceUpperBound : ℚ
  numRestarts : Nat
  maxIters : Nat
  deriving DecidableEq

/-- The opaque fitted GPy regression model: only the kernel hyperparameters
read back by the constructor (`.kern.lengthscale`, `.kern.variance`) are
relevant to the embedding. -/
structure GPyModel where
  kernLengthscale : ℚ
  kernVariance : ℚ
  deriving DecidableEq

/-- The body of `GP_model(data_fusion_data, data_fusion_target_variable,
lengthscale, variance, noise_variance, data_fusion_input_variables)`
(EI_DFT.py lines 202-288) up to the hand-off to GPy.  Returns `ok none` for
an absent (`None`) or empty dataset; otherwise extracts `X` and `Y`,
auto-corrects the initial noise variance (lines 223-234: `0.01*Y.var()` when
not supplied or non-positive, floored to `1e-12` when that estimate is
exactly zero), the kernel variance (lines 244-252: `Y.var()` floored to `1`)
and the lengthscale (lines 254-262: `X.max()-X.min()` floored to `1`), and
records the kernel, the noise bound `[1e-12, noise_var + Y.max()^2]` (line
274), the kernel-variance bound `[variance*1e-12, variance + Y.max()^2]`
(line 278, using the RAW `variance` argument: a `None` argument raises a
TypeError there) and `optimize_restarts(max_iters=1000, num_restarts=5)`
(line 282). -/
def GP_modelSpec (data_fusion_data : Option DataFrame)
    (data_fusion_target_variable : Option String)
    (lengthscale variance noise_variance : Option ℚ)
    (data_fusion_input_variables : Option (List String)) :
    Except String (Option ModelSpec) :=
  match data_fusion_data with
  | none => Except.ok none
  | some df =>
    if df.rows.isEmpty then Except.ok none
    else
      match dfSelect df data_fusion_input_variables,
            dfSelect df (data_fusion_target_variable.map (fun t => [t])) with
      | Except.error e, _ => Except.error e
      | Except.ok _, Except.error e => Except.error e
      | Except.ok X, Except.ok Y =>
        let yvals := Y.flatten
        let noise_var_limit : ℚ := 1 / 10 ^ 12
        let noise_var : ℚ :=
          if noise_variance.elim true (fun v => decide (v ≤ 0)) then
            if (1 / 100 : ℚ) * pvar yvals = 0 then noise_var_limit
            else (1 / 100 : ℚ) * pvar yvals
          else noise_variance.getD 0
        let kernel_var : ℚ :=
          if variance.elim true (fun v => decide (v ≤ 0)) then
            if pvar yvals = 0 then 1 else pvar yvals
          else variance.getD 0
        let xvals := X.flatten
        let kernel_ls : ℚ :=
          if lengthscale.elim true (fun v => decide (v ≤ 0)) then
            if listMax xvals - listMin xvals = 0 then 1
            else listMax xvals - listMin xvals
          else lengthscale.getD 0
        match variance with
        | none => Except.error "TypeError: unsupported operand for NoneType"
        | some v =>
          Except.ok (some
            { inputDim := (X.headD []).length
              kernelLengthscale := kernel_ls
              kernelVariance := kernel_var
              noiseVariance := noise_var
              noiseLowerBound := noise_var_limit
              noiseUpperBound := noise_var + (listMax yvals) ^ 2
              varianceLowerBound := v * (1 / 10 ^ 12)
              varianceUpperBound := v + (listMax yvals) ^ 2
              numRestarts := 5
              maxIters := 1000 })

/-- Embedding of `GP_model` (EI_DFT.py lines 202-288): the computed
specification handed
to GPy, followed by the external fit `optimize_restarts`, abstracted as
`fit`. -/
def GP_model (fit : ModelSpec → GPyModel) (data_fusion_data : Option DataFrame)
    (data_fusion_target_variable : Option String)
    (lengthscale variance noise_variance : Option ℚ)
    (data_fusion_input_variables : Option (List String)) :
    Except String (Option GPyModel) :=
  (GP_modelSpec data_fusion_data data_fusion_target_variable lengthscale
    variance noise_variance data_fusion_input_variables).map
    (fun m => m.map fit)

/-- The `ei_dft_params` dictionary of the `AcquisitionEI_DFT` constructor.
Each field is `none` when the key is ABSENT from the dictionary; for keys
whose value may itself be Python `None`, the present-value is again an
`Option`. -/
structure EIDFTParams where
  df_data : Option (Option DataFrame)
  df_target_var : Option (Option String)
  df_input_var : Option (Option (List String))
  gp_lengthscale : Option (Option ℚ)
  gp_variance : Option (Option ℚ)
  p_beta : Option ℚ
  p_midpoint : Option ℚ
  df_model : Option (Option GPyModel)

/-- The default dictionary the constructor builds when `ei_dft_params` is
`None` (EI_DFT.py lines 42-54): every key present, data/model values `None`,
`gp_lengthscale = 0.03`, `gp_variance = 2`, `p_beta = 0.025`,
`p_midpoint = 0`. -/
def defaultParams : EIDFTParams :=
  { df_data := some none
    df_target_var := some none
    df_input_var := some none
    gp_lengthscale := some (some (3 / 100))
    gp_variance := some (some 2)
    p_beta := some (1 / 40)
    p_midpoint := some 0
    df_model := some none }

/-- The attribute state of a fully constructed `AcquisitionEI_DFT` object.
`midpoint` is an `Option`: `none` records that the attribute was never
assigned (the `p_midpoint`-absent branch assigns `self.beta = 0` instead of
`self.midpoint`). -/
structure AcqState where
  jitter : ℚ
  data_fusion_target_variable : Option String
  data_fusion_input_variables : Option (List String)
  data_fusion_data : Option DataFrame
  lengthscale : ℚ
  variance : ℚ
  beta : ℚ
  midpoint : Option ℚ
  constraint_model : GPyModel

/-- Embedding of `plot_P(GP_model, beta, data_type, midpoint)` (EI_DFT.py
lines 347-373):
line 368 unpacks THREE values, `mean, propability, conf_interval = calc_P(...)`,
but the `calc_P` of this file (line 308) returns only the pair
`mean, propability`, so the call always raises
`ValueError: not enough values to unpack`. -/
def plot_P : Except String (ℚ × ℚ) :=
  Except.error "ValueError: not enough values to unpack"

/-- The constructor body of `AcquisitionEI_DFT.__init__(model, space,
optimizer, cost_withGradients, jitter, ei_dft_params)` (EI_DFT.py lines
36-124), restricted to the EI_DFT-specific state (the `optimizer`, `model`,
`space`, `cost_withGradients` attributes belong to the external base class).
Steps: default the params dictionary (lines 42-54); read
`df_target_var`/`df_input_var` with `None` fallbacks (lines 56-64); either
take the injected `df_model` (lines 66-71) or build one with `GP_model`
(lines 73-95); read `self.constraint_model.kern.lengthscale` and `.variance`
(lines 97-99) — an `AttributeError` when the model is `None`; set
`self.beta` from `p_beta` with default `0.025` (lines 101-104); on
`p_midpoint` present set `self.midpoint`, otherwise the source assigns
`self.beta = 0` and `self.midpoint` stays unset (lines 106-109); finally
`len(self.data_fusion_input_variables)` (line 113) — a `TypeError` on
`None` — and for 3 input variables with the known target names the `plot_P`
call (lines 113-119), which raises. -/
def initEIDFT (fit : ModelSpec → GPyModel) (jitter : ℚ)
    (ei_dft_params : Option EIDFTParams) : Except String AcqState :=
  let params := ei_dft_params.getD defaultParams
  let tv : Option String := params.df_target_var.getD none
  let iv : Option (List String) := params.df_input_var.getD none
  let built : Except String (Option GPyModel × Option DataFrame) :=
    match params.df_model with
    | some m =>
      -- Data is not used for anything if the model already exists.
      Except.ok (m, none)
    | none =>
      let dfd := params.df_data.getD none
      let ls := params.gp_lengthscale.getD (some (3 / 100))
      let var := params.gp_variance.getD (some 2)
      match GP_model fit dfd tv ls var none iv with
      | Except.error e => Except.error e
      | Except.ok m => Except.ok (m, dfd)
  match built with
  | Except.error e => Except.error e
  | Except.ok (cm?, dfd) =>
    match cm? with
    | none => Except.error "AttributeError: NoneType has no attribute kern"
    | some cm =>
      let beta0 := params.p_beta.getD (1 / 40)
      let bm : ℚ × Option ℚ :=
        match params.p_midpoint with
        | some v => (beta0, some v)
        | none => (0, none)  -- source line 109 sets `self.beta = 0` here
      match iv with
      | none => Except.error "TypeError: object of type NoneType has no len"
      | some vars =>
        let st : AcqState :=
          { jitter := jitter
            data_fusion_target_variable := tv
            data_fusion_input_variables := iv
            data_fusion_data := dfd
            lengthscale := cm.kernLengthscale
            variance := cm.kernVariance
            beta := bm.1
            midpoint := bm.2
            constraint_model := cm }
        if vars.length = 3 then
          if tv = some "dGmix (ev/f.u.)" then
            match plot_P with
            | Except.error e => Except.error e
            | Except.ok _ => Except.ok st
          else if tv = some "Yellowness" then
            match plot_P with
            | Except.error e => Except.error e
            | Except.ok _ => Except.ok st
          else Except.ok st
        else Except.ok st

/-! ### Concrete instances used by witnesses and counterexamples -/

/-- A trivial fitter standing for `optimize_restarts`. -/
def fitW : ModelSpec → GPyModel := fun _ => { kernLengthscale := 1, kernVariance := 1 }

/-- A pre-fitted model to inject through the `df_model` key. -/
def mW : GPyModel := { kernLengthscale := 1, kernVariance := 1 }

/-- An `ei_dft_params` dictionary that supplies `df_model` and `p_beta = 0.5`
but OMITS the `p_midpoint` key. -/
def paramsC9 : EIDFTParams :=
  { df_data := none
    df_target_var := none
    df_input_var := some (some ["x1"])
    gp_lengthscale := none
    gp_variance := none
    p_beta := some (1 / 2)
    p_midpoint := none
    df_model := some (some mW) }

/-- A one-row auxiliary dataset with input column `x1 = 0` and target
`y = 1`. -/
def dfW : DataFrame :=
  { columns := ["x1", "y"]
    rows := [fun c => if c = "x1" then (0 : ℚ) else 1] }

/-- A NaN-propagating primary surrogate: all outputs read the first
coordinate of each row. -/
def pmNaN : PModel ℚ where
  predict := fun x => (x.map (fun r => r.headD none), x.map (fun r => r.headD none))
  predictWithGradients := fun x =>
    (x.map (fun r => r.headD none), x.map (fun r => r.headD none), x, x)
  fmin := 0

/-- A quantile function passing the posterior moments through. -/
def qNaN : Quantiles ℚ := fun _ _ m s => (s, s, m)

/-! ### Helper lemmas -/

theorem nmul_some_one (v : NR R) : nmul v (some 1) = v := by
  cases v <;> simp [nmul]

theorem czip_nmul_replicate_one (c : Col R) (n : Nat) (h : c.length = n) :
    czip nmul c (List.replicate n (some 1)) = c := by
  induction c generalizing n with
  | nil => simp [czip]
  | cons a t ih =>
    cases n with
    | zero => simp at h
    | succ k =>
      simp only [czip, List.replicate_succ, List.zipWith_cons_cons, nmul_some_one]
      exact congrArg (a :: ·) (ih k (by simpa using h))

theorem le_foldl_max (l : List ℚ) (a : ℚ) : a ≤ l.foldl max a := by
  induction l generalizing a with
  | nil => exact le_rfl
  | cons x xs ih => exact le_trans (le_max_left a x) (ih (max a x))

theorem foldl_min_le (l : List ℚ) (a : ℚ) : l.foldl min a ≤ a := by
  induction l generalizing a with
  | nil => exact le_rfl
  | cons x xs ih => exact le_trans (ih (min a x)) (min_le_left a x)

theorem listMin_le_listMax (l : List ℚ) : listMin l ≤ listMax l := by
  cases l with
  | nil => exact le_rfl
  | cons x xs => exact le_trans (foldl_min_le xs x) (le_foldl_max xs x)

theorem pvar_nonneg (l : List ℚ) : 0 ≤ pvar l := by
  unfold pvar
  apply div_nonneg
  · apply List.sum_nonneg
    intro x hx
    simp only [List.mem_map] at hx
    obtain ⟨y, _, rfl⟩ := hx
    positivity
  · positivity

theorem GP_modelSpec_no_data (tv : Option String) (ls var nv : Option ℚ)
    (iv : Option (List String)) (d : Option DataFrame)
    (hd : d.elim True (fun df => df.rows = [])) :
    GP_modelSpec d tv ls var nv iv = Except.ok none := by
  cases d with
  | none => rfl
  | some df =>
    simp only [Option.elim] at hd
    unfold GP_modelSpec
    simp [List.isEmpty_iff, hd]

theorem GP_model_no_data (fit : ModelSpec → GPyModel) (tv : Option String)
    (ls var nv : Option ℚ) (iv : Option (List String)) (d : Option DataFrame)
    (hd : d.elim True (fun df => df.rows = [])) :
    GP_model fit d tv ls var nv iv = Except.ok none := by
  unfold GP_model
  rw [GP_modelSpec_no_data tv ls var nv iv d hd]
  rfl

theorem GP_modelSpec_nonempty (df : DataFrame) (tv : Option String)
    (ls nv : Option ℚ) (v : ℚ) (iv : Option (List String))
    (X Y : List (List ℚ)) (hne : ¬ df.rows = [])
    (hX : dfSelect df iv = Except.ok X)
    (hY : dfSelect df (tv.map (fun t => [t])) = Except.ok Y) :
    GP_modelSpec (some df) tv ls (some v) nv iv = Except.ok (some
      { inputDim := (X.headD []).length
        kernelLengthscale :=
          if ls.elim true (fun w => decide (w ≤ 0)) then
            if listMax X.flatten - listMin X.flatten = 0 then 1
            else listMax X.flatten - listMin X.flatten
          else ls.getD 0
        kernelVariance :=
          if decide (v ≤ 0) then
            if pvar Y.flatten = 0 then 1 else pvar Y.flatten
          else v
        noiseVariance :=
          if nv.elim true (fun w => decide (w ≤ 0)) then
            if (1 / 100 : ℚ) * pvar Y.flatten = 0 then 1 / 10 ^ 12
            else (1 / 100 : ℚ) * pvar Y.flatten
          else nv.getD 0
        noiseLowerBound := 1 / 10 ^ 12
        noiseUpperBound :=
          (if nv.elim true (fun w => decide (w ≤ 0)) then
            if (1 / 100 : ℚ) * pvar Y.flatten = 0 then 1 / 10 ^ 12
            else (1 / 100 : ℚ) * pvar Y.flatten
          else nv.getD 0) + (listMax Y.flatten) ^ 2
        varianceLowerBound := v * (1 / 10 ^ 12)
        varianceUpperBound := v + (listMax Y.flatten) ^ 2
        numRestarts := 5
        maxIters := 1000 }) := by
  unfold GP_modelSpec
  simp [List.isEmpty_iff, hne, hX, hY]

theorem GP_modelSpec_var_none (df : DataFrame) (tv : Option String)
    (ls nv : Option ℚ) (iv : Option (List String)) (X Y : List (List ℚ))
    (hne : ¬ df.rows = []) (hX : dfSelect df iv = Except.ok X)
    (hY : dfSelect df (tv.map (fun t => [t])) = Except.ok Y) :
    GP_modelSpec (some df) tv ls none nv iv =
      Except.error "TypeError: unsupported operand for NoneType" := by
  unfold GP_modelSpec
  simp [List.isEmpty_iff, hne, hX, hY]

/-! ### Claim theorems -/

/-- C5: for every finite mean `m` and `beta > 0`, the value
`inv_sigmoid(m, midpoint, beta) = 1/(1 + exp((m - midpoint)/beta))` lies
strictly in the open interval `(0, 1)`, is strictly decreasing in `m`, and
equals exactly `0.5` at `m = midpoint`. -/
theorem inv_sigmoid_props (midpoint beta : ℝ) (hb : 0 < beta) :
    (∀ m : ℝ, inv_sigmoidR Real.exp m midpoint beta ∈ Set.Ioo (0 : ℝ) 1) ∧
    StrictAnti (fun m : ℝ => inv_sigmoidR Real.exp m midpoint beta) ∧
    inv_sigmoidR Real.exp midpoint midpoint beta = 1 / 2 := by
  refine ⟨fun m => ?_, fun m1 m2 h => ?_, ?_⟩
  · have he : 0 < Real.exp ((m - midpoint) / beta) := Real.exp_pos _
    constructor
    · unfold inv_sigmoidR
      positivity
    · unfold inv_sigmoidR
      rw [div_lt_one (by linarith)]
      linarith
  · have he : Real.exp ((m1 - midpoint) / beta) <
        Real.exp ((m2 - midpoint) / beta) := by
      apply Real.exp_lt_exp.mpr
      apply div_lt_div_of_pos_right _ hb
      linarith
    have h1 : 0 < 1 + Real.exp ((m1 - midpoint) / beta) := by
      have := Real.exp_pos ((m1 - midpoint) / beta)
      linarith
    unfold inv_sigmoidR
    apply one_div_lt_one_div_of_lt h1
    linarith
  · unfold inv_sigmoidR
    rw [sub_self, zero_div, Real.exp_zero]
    norm_num

/-- Witness for C5 at `midpoint = 0`, `beta = 1`. -/
theorem inv_sigmoid_props_witness :
    (0 : ℝ) < 1 ∧ inv_sigmoidR Real.exp 0 0 1 = 1 / 2 :=
  ⟨by norm_num, (inv_sigmoid_props 0 1 (by norm_num)).2.2⟩

/-- C3: with `surrogate = None`, `calc_P` returns mean identically `0.5` and
probability identically `1.0` for all `n` candidate points of any
dimensionality, and consequently `_compute_acq(x)` is exactly the plain
Expected-Improvement value `s*(u*Phi + phi)`. -/
theorem acq_no_surrogate {R : Type} [Field R] (rexp : R → R) (model : PModel R)
    (q : Quantiles R) (jitter beta midpoint : R) (x : Mat R)
    (m s phi Phi u : Col R)
    (hpred : model.predict x = (m, s))
    (hq : q jitter model.fmin m s = (phi, Phi, u))
    (hs : s.length = x.length) (hphi : phi.length = x.length)
    (hPhi : Phi.length = x.length) (hu : u.length = x.length) :
    calc_P rexp x none beta midpoint =
      (List.replicate x.length (some (1 / 2)),
       List.replicate x.length (some 1)) ∧
    compute_acq rexp model q jitter none beta midpoint x =
      Except.ok (czip nmul s (czip nadd (czip nmul u Phi) phi)) := by
  constructor
  · rfl
  · have hlen : (czip nmul s (czip nadd (czip nmul u Phi) phi)).length
        = x.length := by
      simp [czip, List.length_zipWith, hs, hphi, hPhi, hu]
    simp only [compute_acq, hpred, hq, calc_P]
    rw [czip_nmul_replicate_one _ _ hlen]

/-- Witness for C3 on a one-point batch with a concrete primary model and
quantile function. -/
theorem acq_no_surrogate_witness :
    calc_P (id : ℚ → ℚ) [[some 0]] none (1 / 40) 0 =
      (List.replicate 1 (some (1 / 2)), List.replicate 1 (some 1)) ∧
    compute_acq (id : ℚ → ℚ)
      ⟨fun _ => ([some 0], [some 1]),
       fun _ => ([some 0], [some 1], [[some 0]], [[some 1]]), 0⟩
      (fun _ _ _ _ => ([some 1], [some 1], [some 1])) (1 / 100) none (1 / 40) 0
      [[some 0]] =
      Except.ok (czip nmul [some 1]
        (czip nadd (czip nmul [some 1] [some 1]) [some 1])) :=
  acq_no_surrogate (id : ℚ → ℚ)
    ⟨fun _ => ([some 0], [some 1]),
     fun _ => ([some 0], [some 1], [[some 0]], [[some 1]]), 0⟩
    (fun _ _ _ _ => ([some 1], [some 1], [some 1])) (1 / 100) (1 / 40) 0
    [[some 0]] [some 0] [some 1] [some 1] [some 1] [some 1]
    rfl rfl rfl rfl rfl rfl

/-- C1: evaluation of `calc_gradient_of_P` on the 1×2 batch `[[0, 0]]` with
no surrogate (probability identically 1, so every central difference is 0),
`lengthscale = 1` and uninitialized memory `[[99, 99]]`.  Because `return g`
sits inside the per-dimension loop, only column 0 receives its central
difference (0); column 1 keeps the uninitialized value 99 instead of the
central difference 0 required by the claim. -/
theorem calc_gradient_of_P_first_dim_only :
    calc_gradient_of_P (id : ℚ → ℚ) [[some 0, some 0]] none 1 0 1
      [[some 99, some 99]] = some [[some 0, some 99]] ∧ (99 : ℚ) ≠ 0 := by
  constructor
  · simp only [calc_gradient_of_P, calc_P, ncols, mapCol, setCol, czip,
      ndiv, nsub, nadd, nmul]
    norm_num
  · norm_num

/-- C4: neither `_compute_acq` nor `_compute_acq_withGradients` raises on a
batch containing NaN: on `x = [[nan]]` both return `ok` results whose
entries are NaN (`none`), even though `np.any(np.isnan(x))` is `True` — the
check in `_compute_acq_withGradients` only builds a discarded message. -/
theorem acq_nan_silent :
    anyIsNaN ([[none]] : Mat ℚ) = true ∧
    compute_acq (id : ℚ → ℚ) pmNaN qNaN (1 / 100) none (1 / 40) 0 [[none]] =
      Except.ok [none] ∧
    compute_acq_withGradients (id : ℚ → ℚ) pmNaN qNaN (1 / 100) none (1 / 40)
      0 (3 / 100) [[some 0]] [[none]] = Except.ok ([none], [[none]]) := by
  refine ⟨rfl, rfl, ?_⟩
  rfl

/-- C6: `GP_model` returns `None` exactly when the auxiliary dataset is
absent (`None`) or has zero rows, and returns a fitted model otherwise (for
a well-formed configuration: numeric variance, named input/target columns
that exist in the dataset). -/
theorem GP_model_none_iff_no_data (fit : ModelSpec → GPyModel)
    (d : Option DataFrame) (tv : Option String) (ls var nv : Option ℚ)
    (iv : Option (List String)) :
    (GP_model fit d tv ls var nv iv = Except.ok none ↔
      d.elim True (fun df => df.rows = [])) ∧
    (∀ df v t vars, d = some df → df.rows ≠ [] → var = some v →
      tv = some t → iv = some vars →
      vars.all (fun c => df.columns.contains c) = true →
      df.columns.contains t = true →
      ∃ M, GP_model fit d tv ls var nv iv = Except.ok (some M)) := by
  constructor
  · constructor
    · intro h
      cases d with
      | none => trivial
      | some df =>
        simp only [Option.elim]
        by_contra hne
        simp only [GP_model, GP_modelSpec] at h
        rw [if_neg (by simp [List.isEmpty_iff, hne])] at h
        rcases h1 : dfSelect df iv with e | X <;> rw [h1] at h
        · simp [Except.map] at h
        · rcases h2 : dfSelect df (tv.map (fun t => [t])) with e | Y <;>
            rw [h2] at h
          · simp [Except.map] at h
          · cases var <;> simp [Except.map] at h
    · intro h
      rw [GP_model_no_data fit tv ls var nv iv d h]
  · intro df v t vars hd hne hv ht hiv hvars htcol
    subst hd hv ht hiv
    have hv2 : ∀ c ∈ vars, c ∈ df.columns := by simpa using hvars
    have hX : dfSelect df (some vars) =
        Except.ok (df.rows.map (fun r => vars.map r)) := by
      simp [dfSelect, hv2]
      exact hv2
    have hY : dfSelect df ((some t).map (fun t => [t])) =
        Except.ok (df.rows.map (fun r => [t].map r)) := by
      have ht2 : t ∈ df.columns := by simpa using htcol
      simp [dfSelect, ht2]
    have heq := GP_modelSpec_nonempty df (some t) ls nv v (some vars) _ _ hne hX hY
    exact ⟨_, by unfold GP_model; rw [heq]; rfl⟩

/-- C7: for a non-empty dataset, the initial hyperparameters handed to the
regression are strictly positive after auto-correction, with the
auto-corrections exactly as claimed: noise variance `0.01*var(Y)` when not
supplied or non-positive (floored to `1e-12` when `var(Y) = 0`), signal
variance `var(Y)` (floored to `1` for constant `Y`), lengthscale
`max(X)-min(X)` (floored to `1` for constant `X`); supplied positive values
pass through. -/
theorem GP_model_initial_hyperparams (d : Option DataFrame)
    (tv : Option String) (ls var nv : Option ℚ) (iv : Option (List String))
    (df : DataFrame) (X Y : List (List ℚ)) (sp : ModelSpec)
    (hd : d = some df) (hne : df.rows ≠ [])
    (hX : dfSelect df iv = Except.ok X)
    (hY : dfSelect df (tv.map (fun t => [t])) = Except.ok Y)
    (hok : GP_modelSpec d tv ls var nv iv = Except.ok (some sp)) :
    (0 < sp.noiseVariance ∧ 0 < sp.kernelVariance ∧
      0 < sp.kernelLengthscale) ∧
    ((nv = none ∨ ∃ w, nv = some w ∧ w ≤ 0) →
      sp.noiseVariance =
        if pvar Y.flatten = 0 then 1 / 10 ^ 12
        else 1 / 100 * pvar Y.flatten) ∧
    ((var = none ∨ ∃ w, var = some w ∧ w ≤ 0) →
      sp.kernelVariance =
        if pvar Y.flatten = 0 then 1 else pvar Y.flatten) ∧
    ((ls = none ∨ ∃ w, ls = some w ∧ w ≤ 0) →
      sp.kernelLengthscale =
        if listMax X.flatten - listMin X.flatten = 0 then 1
        else listMax X.flatten - listMin X.flatten) ∧
    (∀ w, nv = some w → 0 < w → sp.noiseVariance = w) ∧
    (∀ w, var = some w → 0 < w → sp.kernelVariance = w) ∧
    (∀ w, ls = some w → 0 < w → sp.kernelLengthscale = w) := by
  subst hd
  cases var with
  | none =>
    rw [GP_modelSpec_var_none df tv ls nv iv X Y hne hX hY] at hok
    exact absurd hok (by simp)
  | some v =>
    rw [GP_modelSpec_nonempty df tv ls nv v iv X Y hne hX hY] at hok
    simp only [Except.ok.injEq, Option.some.injEq] at hok
    subst hok
    have hp : 0 ≤ pvar Y.flatten := pvar_nonneg Y.flatten
    have hdx : 0 ≤ listMax X.flatten - listMin X.flatten :=
      sub_nonneg.mpr (listMin_le_listMax X.flatten)
    have h100 : (1 / 100 : ℚ) * pvar Y.flatten = 0 ↔ pvar Y.flatten = 0 := by
      rw [mul_eq_zero]
      norm_num
    refine ⟨⟨?_, ?_, ?_⟩, ?_, ?_, ?_, ?_, ?_, ?_⟩
    · -- noise variance positive
      dsimp only
      cases nv with
      | none =>
        simp only [Option.elim]
        rw [if_pos (by trivial)]
        split
        · norm_num
        · rename_i h
          exact lt_of_le_of_ne (mul_nonneg (by norm_num) hp) (Ne.symm h)
      | some w =>
        by_cases hw : w ≤ 0
        · simp only [Option.elim]
          rw [if_pos (decide_eq_true hw)]
          split
          · norm_num
          · rename_i h
            exact lt_of_le_of_ne (mul_nonneg (by norm_num) hp) (Ne.symm h)
        · simp only [Option.elim]
          rw [if_neg (by simp [hw])]
          exact not_le.mp hw
    · -- kernel variance positive
      dsimp only
      by_cases hv0 : v ≤ 0
      · rw [if_pos (decide_eq_true hv0)]
        split
        · norm_num
        · rename_i h
          exact lt_of_le_of_ne hp (Ne.symm h)
      · rw [if_neg (by simp [hv0])]
        exact not_le.mp hv0
    · -- lengthscale positive
      dsimp only
      cases ls with
      | none =>
        simp only [Option.elim]
        rw [if_pos (by trivial)]
        split
        · norm_num
        · rename_i h
          exact lt_of_le_of_ne hdx (Ne.symm h)
      | some w =>
        by_cases hw : w ≤ 0
        · simp only [Option.elim]
          rw [if_pos (decide_eq_true hw)]
          split
          · norm_num
          · rename_i h
            exact lt_of_le_of_ne hdx (Ne.symm h)
        · simp only [Option.elim]
          rw [if_neg (by simp [hw])]
          exact not_le.mp hw
    · -- noise auto-correction formula
      rintro (rfl | ⟨w, rfl, hw⟩)
      · dsimp only [Option.elim]
        rw [if_pos rfl, if_congr h100 rfl rfl]
      · dsimp only [Option.elim]
        rw [if_pos (decide_eq_true hw), if_congr h100 rfl rfl]
    · -- kernel variance auto-correction formula
      rintro (h | ⟨w, hw1, hw⟩)
      · exact absurd h (by simp)
      · dsimp only [Option.elim]
        obtain rfl : v = w := by simpa using hw1
        rw [if_pos (decide_eq_true hw)]
    · -- lengthscale auto-correction formula
      rintro (rfl | ⟨w, rfl, hw⟩)
      · dsimp only [Option.elim]
        rw [if_pos rfl]
      · dsimp only [Option.elim]
        rw [if_pos (decide_eq_true hw)]
    · -- supplied positive noise variance passes through
      rintro w rfl hw
      dsimp only [Option.elim]
      rw [if_neg (by simp; linarith)]
      rfl
    · -- supplied positive kernel variance passes through
      rintro w hw1 hw
      obtain rfl : v = w := by simpa using hw1
      dsimp only
      rw [if_neg (by simp; linarith)]
    · -- supplied positive lengthscale passes through
      rintro w rfl hw
      dsimp only [Option.elim]
      rw [if_neg (by simp; linarith)]
      rfl

/-- Witness for C7 on the concrete one-row dataset `dfW` (constant target,
so the auto-estimated noise variance is floored to `1e-12`). -/
theorem GP_model_initial_hyperparams_witness :
    0 < (1 / 10 ^ 12 : ℚ) ∧ 0 < (2 : ℚ) ∧ 0 < (3 / 100 : ℚ) :=
  ((GP_model_initial_hyperparams (some dfW) (some "y") (some (3 / 100))
      (some 2) none (some ["x1"]) dfW [[0]] [[1]]
      { inputDim := 1, kernelLengthscale := 3 / 100, kernelVariance := 2,
        noiseVariance := 1 / 10 ^ 12, noiseLowerBound := 1 / 10 ^ 12,
        noiseUpperBound := 1 / 10 ^ 12 + 1 ^ 2,
        varianceLowerBound := 2 * (1 / 10 ^ 12),
        varianceUpperBound := 2 + 1 ^ 2, numRestarts := 5, maxIters := 1000 }
      rfl (by simp [dfW]) (by simp [dfW, dfSelect]) (by simp [dfW, dfSelect])
      (by simp [GP_modelSpec_nonempty dfW (some "y") (some (3 / 100)) none 2
            (some ["x1"]) [[0]] [[1]] (by simp [dfW])
            (by simp [dfW, dfSelect]) (by simp [dfW, dfSelect]),
          pvar, listMax, listMin]))).1

/-- Witness for C6: the `None`-dataset direction and the fitted direction on
the concrete one-row dataset `dfW`. -/
theorem GP_model_none_iff_no_data_witness :
    (GP_model fitW none (some "y") (some (3 / 100)) (some 2) none
      (some ["x1"]) = Except.ok none) ∧
    (∃ M, GP_model fitW (some dfW) (some "y") (some (3 / 100)) (some 2) none
      (some ["x1"]) = Except.ok (some M)) :=
  ⟨(GP_model_none_iff_no_data fitW none (some "y") (some (3 / 100)) (some 2)
      none (some ["x1"])).1.mpr trivial,
   (GP_model_none_iff_no_data fitW (some dfW) (some "y") (some (3 / 100))
      (some 2) none (some ["x1"])).2 dfW 2 "y" ["x1"] rfl (by simp [dfW]) rfl
      rfl rfl (by decide) (by decide)⟩

/-- C8: for a non-empty dataset, `GP_model` constrains the hyperparameters
with hard bounds before optimizing — observation-noise variance to
`[1e-12, noise_variance + max(Y)^2]`, kernel signal variance to
`[variance*1e-12, variance + max(Y)^2]` — and fits with 5 (hence at least 5)
random restarts. -/
theorem GP_model_hard_bounds (d : Option DataFrame) (tv : Option String)
    (ls var nv : Option ℚ) (iv : Option (List String)) (df : DataFrame)
    (X Y : List (List ℚ)) (v : ℚ) (sp : ModelSpec)
    (hd : d = some df) (hne : df.rows ≠ [])
    (hX : dfSelect df iv = Except.ok X)
    (hY : dfSelect df (tv.map (fun t => [t])) = Except.ok Y)
    (hv : var = some v)
    (hok : GP_modelSpec d tv ls var nv iv = Except.ok (some sp)) :
    sp.noiseLowerBound = 1 / 10 ^ 12 ∧
    sp.noiseUpperBound = sp.noiseVariance + listMax Y.flatten ^ 2 ∧
    sp.varianceLowerBound = v * (1 / 10 ^ 12) ∧
    sp.varianceUpperBound = v + listMax Y.flatten ^ 2 ∧
    5 ≤ sp.numRestarts := by
  subst hd hv
  rw [GP_modelSpec_nonempty df tv ls nv v iv X Y hne hX hY] at hok
  simp only [Except.ok.injEq, Option.some.injEq] at hok
  subst hok
  exact ⟨rfl, rfl, rfl, rfl, le_refl 5⟩

/-- Witness for C8 on the concrete one-row dataset `dfW`. -/
theorem GP_model_hard_bounds_witness :
    (1 / 10 ^ 12 : ℚ) = 1 / 10 ^ 12 ∧
    (1 / 10 ^ 12 + 1 ^ 2 : ℚ) = 1 / 10 ^ 12 + 1 ^ 2 ∧
    (2 * (1 / 10 ^ 12) : ℚ) = 2 * (1 / 10 ^ 12) ∧
    (2 + 1 ^ 2 : ℚ) = 2 + 1 ^ 2 ∧ 5 ≤ 5 :=
  GP_model_hard_bounds (some dfW) (some "y") (some (3 / 100)) (some 2) none
    (some ["x1"]) dfW [[0]] [[1]] 2
    { inputDim := 1, kernelLengthscale := 3 / 100, kernelVariance := 2,
      noiseVariance := 1 / 10 ^ 12, noiseLowerBound := 1 / 10 ^ 12,
      noiseUpperBound := 1 / 10 ^ 12 + 1 ^ 2,
      varianceLowerBound := 2 * (1 / 10 ^ 12),
      varianceUpperBound := 2 + 1 ^ 2, numRestarts := 5, maxIters := 1000 }
    rfl (by simp [dfW]) (by simp [dfW, dfSelect]) (by simp [dfW, dfSelect])
    rfl
    (by simp [GP_modelSpec_nonempty dfW (some "y") (some (3 / 100)) none 2
          (some ["x1"]) [[0]] [[1]] (by simp [dfW])
          (by simp [dfW, dfSelect]) (by simp [dfW, dfSelect]),
        pvar, listMax, listMin])

/-- C9: the claim that `p_beta` and `p_midpoint` are read independently with
defaults `0.025` and `0` fails on the code: with `p_beta = 0.5` supplied and
`p_midpoint` absent, the else-branch of the constructor assigns `self.beta = 0`
(overwriting the supplied `0.5`) and never assigns `self.midpoint` at all. -/
theorem init_beta_midpoint_bug :
    (initEIDFT fitW (1 / 100) (some paramsC9)).map
      (fun st => (st.beta, st.midpoint)) =
      Except.ok ((0 : ℚ), (none : Option ℚ)) ∧ (0 : ℚ) ≠ 1 / 2 := by
  constructor
  · rfl
  · norm_num

/-- C10: whenever the auxiliary model the constructor obtains is `None` —
the `df_model` key present with value `None` (as in the default
configuration built for `ei_dft_params = None`), or the key absent with an
absent/empty `df_data` — the constructor raises (it unconditionally reads
`self.constraint_model.kern.lengthscale`), so the `None`-model fallback of
`calc_P` is unreachable through constructor-built instances. -/
theorem init_raises_when_model_none (fit : ModelSpec → GPyModel) (jitter : ℚ)
    (p? : Option EIDFTParams)
    (h : (p?.getD defaultParams).df_model = some none ∨
      ((p?.getD defaultParams).df_model = none ∧
        ((p?.getD defaultParams).df_data.getD none).elim True
          (fun df => df.rows = []))) :
    ∃ e, initEIDFT fit jitter p? = Except.error e := by
  simp only [initEIDFT]
  rcases h with h1 | ⟨h1, h2⟩
  · rw [h1]
    exact ⟨_, rfl⟩
  · rw [h1]
    rw [GP_model_no_data fit ((p?.getD defaultParams).df_target_var.getD none)
      ((p?.getD defaultParams).gp_lengthscale.getD (some (3 / 100)))
      ((p?.getD defaultParams).gp_variance.getD (some 2)) none
      ((p?.getD defaultParams).df_input_var.getD none)
      ((p?.getD defaultParams).df_data.getD none) h2]
    exact ⟨_, rfl⟩

/-- Witness for C10: the default configuration (`ei_dft_params = None`). -/
theorem init_raises_when_model_none_witness :
    ∃ e, initEIDFT fitW 1 none = Except.error e :=
  init_raises_when_model_none fitW 1 none (Or.inl rfl)

/-- C2: evaluation of `_compute_acq_withGradients` on a one-point,
one-dimensional scenario with `EI = 2`, `d_EI = 1`, `prob = 1/2`,
`d_prob = -1/8` (`beta = 1`, `midpoint = 0`, `lengthscale = 1000`, so
`delta = 1`; the surrogate mean is `0` at `x = 0` and `x = -1` and `log 3`
at `x = 1`).  The returned gradient is `3/8 = d_EI*prob + (EI*prob)*d_prob`
— the source multiplies `f_acqu` by `prob` before using it in the product
rule — whereas the claimed `d_EI*prob + EI*d_prob` equals `1/4`. -/
theorem compute_acq_withGradients_double_prob (M : CModel ℝ) (pm : PModel ℝ)
    (q : Quantiles ℝ) (v1 v2 v3 : Col ℝ)
    (hpm : pm.predictWithGradients [[some 0]] =
      ([some 0], [some 1], [[some 0]], [[some 1]]))
    (hq : q (1 / 100) pm.fmin [some 0] [some 1] =
      ([some 1], [some 1], [some 1]))
    (hMx : M.predictNoiseless [[some 0]] = ([some 0], v1))
    (hMl : M.predictNoiseless [[some (-1)]] = ([some 0], v2))
    (hMu : M.predictNoiseless [[some 1]] = ([some (Real.log 3)], v3)) :
    compute_acq_withGradients Real.exp pm q (1 / 100) (some M) 1 0 1000
      [[some 0]] [[some 0]] = Except.ok ([some 1], [[some (3 / 8)]]) ∧
    nadd (nmul (some 1) (some (1 / 2))) (nmul (some 2) (some (-(1 / 8)))) =
      (some (1 / 4) : NR ℝ) ∧ (3 / 8 : ℝ) ≠ 1 / 4 := by
  refine ⟨?_, by norm_num [nadd, nmul], by norm_num⟩
  norm_num [compute_acq_withGradients, calc_gradient_of_P, calc_P,
    inv_sigmoid, inv_sigmoidR, hpm, hq, hMx, hMl, hMu, czip, mzip, mzipc,
    nmul, nadd, nsub, ndiv, ncols, mapCol, setCol, anyIsNaN,
    Real.exp_log, Real.exp_zero]

/-- Witness for C2, instantiating the surrogate with posterior mean
`log (1 + t + t^2)` at a point `t` and the primary model and quantile
function with the constants of the scenario. -/
theorem compute_acq_withGradients_double_prob_witness :
    compute_acq_withGradients Real.exp
      ⟨fun _ => ([some 0], [some 1]),
       fun _ => ([some 0], [some 1], [[some 0]], [[some 1]]), 0⟩
      (fun _ _ _ _ => ([some 1], [some 1], [some 1])) (1 / 100)
      (some ⟨fun pts =>
        (pts.map (fun row => (row.headD none).map
          (fun t => Real.log (1 + t + t ^ 2))),
         pts.map (fun _ => none))⟩) 1 0 1000 [[some 0]] [[some 0]] =
      Except.ok ([some 1], [[some (3 / 8)]]) ∧
    nadd (nmul (some 1) (some (1 / 2))) (nmul (some 2) (some (-(1 / 8)))) =
      (some (1 / 4) : NR ℝ) ∧ (3 / 8 : ℝ) ≠ 1 / 4 :=
  compute_acq_withGradients_double_prob
    ⟨fun pts =>
      (pts.map (fun row => (row.headD none).map
        (fun t => Real.log (1 + t + t ^ 2))),
       pts.map (fun _ => none))⟩
    ⟨fun _ => ([some 0], [some 1]),
     fun _ => ([some 0], [some 1], [[some 0]], [[some 1]]), 0⟩
    (fun _ _ _ _ => ([some 1], [some 1], [some 1])) [none] [none] [none]
    rfl rfl (by norm_num [Real.log_one]) (by norm_num [Real.log_one])
    (by norm_num)

end EIDFT
